import Mathlib

/-!
Verification of the orchestration engine and deterministic analysis layer of
the Chole fab-analysis agent, shallowly embedded from the Python sources
(`src/agents/supervisor.py`, `src/agents/data_analyst.py`,
`src/agents/domain_expert.py`, `src/graph/graph_builder.py`).

Machine reals appearing in the SQL templates (the `0.10` drift threshold and
the `0.05` wafer-center threshold) are modelled exactly over `ℚ`; integer SQL
sums are modelled as `Int`.  Python strings are modelled as `String`, with
lowercasing/uppercasing via `Char.toLower`/`Char.toUpper` (faithful on the
ASCII alphabet the identifiers and keywords use).
-/

set_option maxRecDepth 4000

namespace Chole

/-! ### String primitives mirroring the Python string operations used -/

/-- Python `str.lower()` (ASCII-faithful). -/
def lowerStr (s : String) : String := String.mk (s.data.map Char.toLower)

/-- Python `str.upper()` (ASCII-faithful). -/
def upperStr (s : String) : String := String.mk (s.data.map Char.toUpper)

/-- ASCII whitespace as stripped by Python `str.strip()`. -/
def pyWs (c : Char) : Bool :=
  c = ' ' || c = '\t' || c = '\n' || c = '\r' || c = '\x0b' || c = '\x0c'

/-- Python `str.strip()` (ASCII whitespace). -/
def pyStrip (s : String) : String :=
  String.mk (((s.data.dropWhile pyWs).reverse.dropWhile pyWs).reverse)

/-- Substring containment on char lists (helper for Python `pat in s`). -/
def containsSub (pat : List Char) : List Char → Bool
  | [] => pat.isPrefixOf []
  | c :: rest => pat.isPrefixOf (c :: rest) || containsSub pat rest

/-- Python `pat in s` substring test. -/
def strContains (s pat : String) : Bool := containsSub pat.data s.data

/-- Python `any(k in s for k in kws)`. -/
def containsAny (s : String) (kws : List String) : Bool :=
  kws.any (fun k => strContains s k)

/-- Python `s[:n]` (slice by code points). -/
def takeStr (n : Nat) (s : String) : String := String.mk (s.data.take n)

/-! ### Weekly drift SQL semantics (`_sql_defect_drift_weekly`, data_analyst.py:81-182)

One `WeeklyRow` is one row of the `weekly` CTE: the two 7-day window sums for
one `(tool, recipe)` group of `defects_daily`. -/

structure WeeklyRow where
  tool : String
  recipe : String
  this_sum : Int
  last_sum : Int
deriving DecidableEq, Repr

/-- `calc` CTE, `diff_pct` column: `CASE WHEN last_sum > 0 THEN
abs(this_sum - last_sum) * 1.0 / last_sum ELSE NULL END`. -/
def diff_pct (r : WeeklyRow) : Option ℚ :=
  if 0 < r.last_sum then
    some (|(r.this_sum : ℚ) - (r.last_sum : ℚ)| / (r.last_sum : ℚ))
  else none

/-- `calc` CTE, `is_anom` column: `CASE WHEN last_sum > 0 AND
abs(this_sum - last_sum) * 1.0 / last_sum > 0.10 THEN 1 ELSE 0 END`. -/
def is_anom (r : WeeklyRow) : Int :=
  if 0 < r.last_sum ∧ |(r.this_sum : ℚ) - (r.last_sum : ℚ)| / (r.last_sum : ℚ) > 1/10
  then 1 else 0

/-- `recipe_k` CTE: `SUM(CASE WHEN is_anom = 1 THEN 1 ELSE 0 END)` grouped by
recipe, over the whole `calc` table (all tools). -/
def k_anom (rows : List WeeklyRow) (recipe : String) : Nat :=
  (rows.filter (fun r => r.recipe = recipe)).countP (fun r => is_anom r = 1)

/-- `labeled` CTE, `drift_label` column (data_analyst.py:134-139). -/
def drift_label (rows : List WeeklyRow) (r : WeeklyRow) : String :=
  if r.last_sum = 0 then "UNKNOWN_BASELINE"
  else if is_anom r = 0 then "STABLE"
  else if k_anom rows r.recipe = 1 then "TOOL_DRIFT"
  else "PROCESS_DRIFT"

/-- `tool_status` CTE: `SUM(CASE WHEN drift_label='TOOL_DRIFT' THEN 1 ELSE 0 END)`
grouped by tool. -/
def tool_drift_recipe_count (rows : List WeeklyRow) (tool : String) : Nat :=
  rows.countP (fun r => r.tool = tool ∧ drift_label rows r = "TOOL_DRIFT")

/-- `tool_status` CTE, `tool_health` column (data_analyst.py:146-147). -/
def tool_health (rows : List WeeklyRow) (tool : String) : String :=
  if 0 < tool_drift_recipe_count rows tool then "UNHEALTHY" else "HEALTHY"

/-! Basic facts about the drift computation. -/

theorem is_anom_eq_one (r : WeeklyRow) :
    is_anom r = 1 ↔
      0 < r.last_sum ∧ |(r.this_sum : ℚ) - (r.last_sum : ℚ)| / (r.last_sum : ℚ) > 1/10 := by
  unfold is_anom
  split <;> simp_all

theorem is_anom_eq_zero (r : WeeklyRow) :
    is_anom r = 0 ↔
      ¬ (0 < r.last_sum ∧ |(r.this_sum : ℚ) - (r.last_sum : ℚ)| / (r.last_sum : ℚ) > 1/10) := by
  unfold is_anom
  split <;> simp_all

theorem is_anom_zero_or_one (r : WeeklyRow) : is_anom r = 0 ∨ is_anom r = 1 := by
  unfold is_anom
  split <;> simp

theorem k_anom_pos_of_mem {rows : List WeeklyRow} {r : WeeklyRow}
    (hmem : r ∈ rows) (hanom : is_anom r = 1) : 1 ≤ k_anom rows r.recipe := by
  unfold k_anom
  have hr : r ∈ rows.filter (fun x => x.recipe = r.recipe) := by
    simp [List.mem_filter, hmem]
  calc 1 = [r].countP (fun x => is_anom x = 1) := by simp [hanom]
    _ ≤ _ := by
      refine List.Sublist.countP_le _ ?_
      exact List.singleton_sublist.mpr hr

theorem tool_health_eq_unhealthy_iff (rows : List WeeklyRow) (tool : String) :
    tool_health rows tool = "UNHEALTHY" ↔
      ∃ r ∈ rows, r.tool = tool ∧ drift_label rows r = "TOOL_DRIFT" := by
  unfold tool_health tool_drift_recipe_count
  split
  · next hpos =>
      rw [List.countP_pos_iff] at hpos
      simp only [decide_eq_true_eq] at hpos
      exact ⟨fun _ => hpos, fun _ => rfl⟩
  · next hneg =>
      constructor
      · intro h
        exact absurd h (by decide)
      · intro ⟨r, hr, h1, h2⟩
        exfalso
        apply hneg
        rw [List.countP_pos_iff]
        exact ⟨r, hr, by simp [h1, h2]⟩

/-- **C1.** In the weekly-drift analysis (`calc` CTE of
`_sql_defect_drift_weekly`), a row's `is_anom` flag is 1 iff `last_sum > 0`
and `|this_sum - last_sum| / last_sum > 0.10`; and when `last_sum = 0` the
`diff_pct` ratio is NULL and the row is not flagged anomalous. -/
theorem c1_is_anom_spec (r : WeeklyRow) :
    (is_anom r = 1 ↔
      0 < r.last_sum ∧ |(r.this_sum : ℚ) - (r.last_sum : ℚ)| / (r.last_sum : ℚ) > 1/10) ∧
    (r.last_sum = 0 → diff_pct r = none ∧ is_anom r = 0) := by
  refine ⟨is_anom_eq_one r, fun h0 => ⟨?_, ?_⟩⟩
  · unfold diff_pct
    simp [h0]
  · rw [is_anom_eq_zero]
    intro ⟨hpos, _⟩
    rw [h0] at hpos
    exact lt_irrefl 0 hpos

/-- Closed witness for `c1_is_anom_spec`: the concrete row with
`this_sum = 5, last_sum = 0` has a NULL ratio and is not anomalous. -/
theorem c1_is_anom_spec_witness :
    (is_anom ⟨"8950XR-P1", "R1", 5, 0⟩ = 1 ↔
      0 < (⟨"8950XR-P1", "R1", 5, 0⟩ : WeeklyRow).last_sum ∧
        |((⟨"8950XR-P1", "R1", 5, 0⟩ : WeeklyRow).this_sum : ℚ) -
          ((⟨"8950XR-P1", "R1", 5, 0⟩ : WeeklyRow).last_sum : ℚ)| /
          ((⟨"8950XR-P1", "R1", 5, 0⟩ : WeeklyRow).last_sum : ℚ) > 1/10) ∧
    ((⟨"8950XR-P1", "R1", 5, 0⟩ : WeeklyRow).last_sum = 0 →
      diff_pct ⟨"8950XR-P1", "R1", 5, 0⟩ = none ∧ is_anom ⟨"8950XR-P1", "R1", 5, 0⟩ = 0) :=
  c1_is_anom_spec ⟨"8950XR-P1", "R1", 5, 0⟩

/-- **C2, counterexample.** The claim says every recipe not flagged anomalous
is labeled `STABLE`; but a row with `last_sum = 0` is not anomalous and is
labeled `UNKNOWN_BASELINE`, not `STABLE`. -/
theorem c2_counterexample :
    is_anom ⟨"8950XR-P1", "R1", 5, 0⟩ = 0 ∧
    drift_label [⟨"8950XR-P1", "R1", 5, 0⟩] ⟨"8950XR-P1", "R1", 5, 0⟩ = "UNKNOWN_BASELINE" ∧
    drift_label [⟨"8950XR-P1", "R1", 5, 0⟩] ⟨"8950XR-P1", "R1", 5, 0⟩ ≠ "STABLE" := by
  refine ⟨?_, by decide, by decide⟩
  rw [is_anom_eq_zero]
  intro ⟨hpos, _⟩
  exact absurd hpos (by decide)

/-- **C2 (amended).** Every recipe flagged anomalous receives exactly one of
`TOOL_DRIFT` (iff `k_anom = 1`) or `PROCESS_DRIFT` (iff several rows of that
recipe are anomalous, `k_anom ≥ 2`); a recipe not flagged anomalous receives
`STABLE` when its `last_sum` is nonzero, and `UNKNOWN_BASELINE` when its
`last_sum` is zero. -/
theorem c2_drift_label_spec (rows : List WeeklyRow) (r : WeeklyRow) (hmem : r ∈ rows) :
    (is_anom r = 1 →
      (drift_label rows r = "TOOL_DRIFT" ∨ drift_label rows r = "PROCESS_DRIFT") ∧
      (drift_label rows r = "TOOL_DRIFT" ↔ k_anom rows r.recipe = 1) ∧
      (drift_label rows r = "PROCESS_DRIFT" ↔ 2 ≤ k_anom rows r.recipe)) ∧
    (is_anom r = 0 → r.last_sum ≠ 0 → drift_label rows r = "STABLE") ∧
    (r.last_sum = 0 → drift_label rows r = "UNKNOWN_BASELINE") := by
  refine ⟨fun hanom => ?_, fun hz hne => ?_, fun h0 => ?_⟩
  · have hlast : r.last_sum ≠ 0 := by
      intro h0
      have := (is_anom_eq_one r).mp hanom
      rw [h0] at this
      exact absurd this.1 (by decide)
    have hk : 1 ≤ k_anom rows r.recipe := k_anom_pos_of_mem hmem hanom
    unfold drift_label
    rw [if_neg hlast, if_neg (by omega)]
    by_cases hk1 : k_anom rows r.recipe = 1
    · simp only [hk1, if_pos rfl]
      refine ⟨Or.inl rfl, by simp, by constructor <;> intro h <;> simp_all⟩
    · rw [if_neg hk1]
      refine ⟨Or.inr rfl, by constructor <;> intro h <;> simp_all, ?_⟩
      constructor
      · intro _; omega
      · intro _; rfl
  · unfold drift_label
    rw [if_neg hne, if_pos hz]
  · unfold drift_label
    rw [if_pos h0]

/-- Closed witness for `c2_drift_label_spec`: two tools anomalous on the same
recipe are both labeled `PROCESS_DRIFT` (`k_anom = 2`). -/
theorem c2_drift_label_spec_witness :
    (is_anom (⟨"8950XR-P1", "R1", 20, 10⟩ : WeeklyRow) = 1 →
      (drift_label [⟨"8950XR-P1", "R1", 20, 10⟩, ⟨"8950XR-P2", "R1", 30, 10⟩]
          ⟨"8950XR-P1", "R1", 20, 10⟩ = "TOOL_DRIFT" ∨
        drift_label [⟨"8950XR-P1", "R1", 20, 10⟩, ⟨"8950XR-P2", "R1", 30, 10⟩]
          ⟨"8950XR-P1", "R1", 20, 10⟩ = "PROCESS_DRIFT") ∧
      (drift_label [⟨"8950XR-P1", "R1", 20, 10⟩, ⟨"8950XR-P2", "R1", 30, 10⟩]
          ⟨"8950XR-P1", "R1", 20, 10⟩ = "TOOL_DRIFT" ↔
        k_anom [⟨"8950XR-P1", "R1", 20, 10⟩, ⟨"8950XR-P2", "R1", 30, 10⟩]
          (⟨"8950XR-P1", "R1", 20, 10⟩ : WeeklyRow).recipe = 1) ∧
      (drift_label [⟨"8950XR-P1", "R1", 20, 10⟩, ⟨"8950XR-P2", "R1", 30, 10⟩]
          ⟨"8950XR-P1", "R1", 20, 10⟩ = "PROCESS_DRIFT" ↔
        2 ≤ k_anom [⟨"8950XR-P1", "R1", 20, 10⟩, ⟨"8950XR-P2", "R1", 30, 10⟩]
          (⟨"8950XR-P1", "R1", 20, 10⟩ : WeeklyRow).recipe)) ∧
    (is_anom (⟨"8950XR-P1", "R1", 20, 10⟩ : WeeklyRow) = 0 →
      (⟨"8950XR-P1", "R1", 20, 10⟩ : WeeklyRow).last_sum ≠ 0 →
      drift_label [⟨"8950XR-P1", "R1", 20, 10⟩, ⟨"8950XR-P2", "R1", 30, 10⟩]
        ⟨"8950XR-P1", "R1", 20, 10⟩ = "STABLE") ∧
    ((⟨"8950XR-P1", "R1", 20, 10⟩ : WeeklyRow).last_sum = 0 →
      drift_label [⟨"8950XR-P1", "R1", 20, 10⟩, ⟨"8950XR-P2", "R1", 30, 10⟩]
        ⟨"8950XR-P1", "R1", 20, 10⟩ = "UNKNOWN_BASELINE") :=
  c2_drift_label_spec _ _ (by simp)

/-- **C3.** A tool's `tool_health` is `UNHEALTHY` iff it has at least one
recipe labeled `TOOL_DRIFT`, and `HEALTHY` otherwise; in particular a tool
whose rows are all labeled `PROCESS_DRIFT` or have a zero baseline is
reported `HEALTHY`. -/
theorem c3_tool_health_spec (rows : List WeeklyRow) (tool : String) :
    (tool_health rows tool = "UNHEALTHY" ↔
      ∃ r ∈ rows, r.tool = tool ∧ drift_label rows r = "TOOL_DRIFT") ∧
    (tool_health rows tool = "HEALTHY" ↔
      ¬ ∃ r ∈ rows, r.tool = tool ∧ drift_label rows r = "TOOL_DRIFT") ∧
    ((∀ r ∈ rows, r.tool = tool →
        drift_label rows r = "PROCESS_DRIFT" ∨ r.last_sum = 0) →
      tool_health rows tool = "HEALTHY") := by
  have hiff := tool_health_eq_unhealthy_iff rows tool
  have hdich : tool_health rows tool = "UNHEALTHY" ∨ tool_health rows tool = "HEALTHY" := by
    unfold tool_health
    split <;> simp
  refine ⟨hiff, ⟨?_, ?_⟩, ?_⟩
  · intro hh hex
    have := hiff.mpr hex
    rw [hh] at this
    exact absurd this (by decide)
  · intro hnex
    rcases hdich with h | h
    · exact absurd (hiff.mp h) hnex
    · exact h
  · intro hall
    rcases hdich with h | h
    · obtain ⟨r, hr, ht, hl⟩ := hiff.mp h
      rcases hall r hr ht with hp | hz
      · rw [hl] at hp
        exact absurd hp (by decide)
      · unfold drift_label at hl
        rw [if_pos hz] at hl
        exact absurd hl (by decide)
    · exact h

/-- Closed witness for `c3_tool_health_spec`: a tool whose only row drifts
together with another tool (`PROCESS_DRIFT`) is reported `HEALTHY`. -/
theorem c3_tool_health_spec_witness :
    (tool_health [⟨"8950XR-P1", "R1", 20, 10⟩, ⟨"8950XR-P2", "R1", 30, 10⟩] "8950XR-P1" =
        "UNHEALTHY" ↔
      ∃ r ∈ [(⟨"8950XR-P1", "R1", 20, 10⟩ : WeeklyRow), ⟨"8950XR-P2", "R1", 30, 10⟩],
        r.tool = "8950XR-P1" ∧
        drift_label [⟨"8950XR-P1", "R1", 20, 10⟩, ⟨"8950XR-P2", "R1", 30, 10⟩] r =
          "TOOL_DRIFT") ∧
    (tool_health [⟨"8950XR-P1", "R1", 20, 10⟩, ⟨"8950XR-P2", "R1", 30, 10⟩] "8950XR-P1" =
        "HEALTHY" ↔
      ¬ ∃ r ∈ [(⟨"8950XR-P1", "R1", 20, 10⟩ : WeeklyRow), ⟨"8950XR-P2", "R1", 30, 10⟩],
        r.tool = "8950XR-P1" ∧
        drift_label [⟨"8950XR-P1", "R1", 20, 10⟩, ⟨"8950XR-P2", "R1", 30, 10⟩] r =
          "TOOL_DRIFT") ∧
    ((∀ r ∈ [(⟨"8950XR-P1", "R1", 20, 10⟩ : WeeklyRow), ⟨"8950XR-P2", "R1", 30, 10⟩],
        r.tool = "8950XR-P1" →
        drift_label [⟨"8950XR-P1", "R1", 20, 10⟩, ⟨"8950XR-P2", "R1", 30, 10⟩] r =
            "PROCESS_DRIFT" ∨ r.last_sum = 0) →
      tool_health [⟨"8950XR-P1", "R1", 20, 10⟩, ⟨"8950XR-P2", "R1", 30, 10⟩] "8950XR-P1" =
        "HEALTHY") :=
  c3_tool_health_spec [⟨"8950XR-P1", "R1", 20, 10⟩, ⟨"8950XR-P2", "R1", 30, 10⟩] "8950XR-P1"

/-! ### Subsystem-mode Domain-Interpretation (`domain_expert_node`, domain_expert.py:59-153)

`CalRow` is one row of the `calibration_overdue` step result; `WcRow` one row
of the `stage_wc_weekly` step result.  The `0.05` threshold is modelled
exactly as `1/20 : ℚ`. -/

structure CalRow where
  tool : String
  subsystem : String
  cal_name : String
  is_overdue : Int
deriving DecidableEq, Repr

structure WcRow where
  tool : String
  recipe : String
  wc_abnormal_ratio : ℚ
deriving DecidableEq, Repr

/-- `overdue_by_sub[sub]` (domain_expert.py:71-80): calibration names of the
overdue rows of one subsystem, in row order. -/
def overdueList (cal : List CalRow) (sub : String) : List String :=
  ((cal.filter (fun r => r.is_overdue = 1 ∧ r.subsystem = sub)).map (fun r => r.cal_name))

/-- `stage_wc_seen` (domain_expert.py:83-90): whether any wafer-center row was
returned this week. -/
def stage_wc_seen (wc : List WcRow) : Bool := !wc.isEmpty

/-- `stage_wc_ratio` (domain_expert.py:82-89): running maximum of
`wc_abnormal_ratio` over the wafer-center rows, starting from `0.0`. -/
def stage_wc_ratio (wc : List WcRow) : ℚ :=
  wc.foldl (fun acc r => max acc r.wc_abnormal_ratio) 0

/-- Lexicographic code-point comparison on char lists (Python string `<`). -/
def charListLt : List Char → List Char → Bool
  | [], [] => false
  | [], _ :: _ => true
  | _ :: _, [] => false
  | a :: as, b :: bs =>
    if a.toNat < b.toNat then true
    else if b.toNat < a.toNat then false
    else charListLt as bs

/-- Python string `<` (lexicographic on code points). -/
def strLt (a b : String) : Bool := charListLt a.data b.data

/-- Ascending insertion into a sorted list of strings (for Python `sorted`). -/
def insertStr (x : String) : List String → List String
  | [] => [x]
  | y :: ys => if strLt x y then x :: y :: ys else y :: insertStr x ys

/-- Python `sorted` on strings (ascending code-point order). -/
def sortStrs (l : List String) : List String := l.foldr insertStr []

/-- `sorted(set(overdue_by_sub.keys()) | {"Stage","Camera","Focus","Illumination"})`
(domain_expert.py:92). -/
def subsystemsOf (cal : List CalRow) : List String :=
  sortStrs
    (((cal.filter (fun r => r.is_overdue = 1)).map (fun r => r.subsystem) ++
      ["Stage", "Camera", "Focus", "Illumination"]).eraseDups)

/-- Per-subsystem status (domain_expert.py:95-109): `Unhealthy` when the
subsystem has overdue calibrations, or — for the Stage subsystem — when
wafer-center data was seen and its running-max out-of-spec ratio exceeds
`0.05`. -/
def subsystem_status (cal : List CalRow) (wc : List WcRow) (sub : String) : String :=
  if lowerStr sub = "stage" ∧ stage_wc_seen wc = true ∧ stage_wc_ratio wc > 1/20
  then "Unhealthy"
  else if (overdueList cal sub).isEmpty then "Healthy" else "Unhealthy"

/-- The per-subsystem health table `rows_out` (subsystem, status). -/
def subsystem_table (cal : List CalRow) (wc : List WcRow) : List (String × String) :=
  (subsystemsOf cal).map (fun sub => (sub, subsystem_status cal wc sub))

/-- `overall_unhealthy` accumulator (domain_expert.py:94-109): true iff some
row of the table was marked `Unhealthy`. -/
def overall_unhealthy (cal : List CalRow) (wc : List WcRow) : Bool :=
  (subsystemsOf cal).any (fun sub => subsystem_status cal wc sub = "Unhealthy")

/-- `status_text` (domain_expert.py:119). -/
def status_text (cal : List CalRow) (wc : List WcRow) : String :=
  if overall_unhealthy cal wc then "Unhealthy" else "Healthy"

structure DomainReport where
  verdict : String
  table : List (String × String)
deriving DecidableEq, Repr

inductive DomainOut where
  | report (r : DomainReport)
  | generated (text : String)
deriving DecidableEq, Repr

/-- `domain_expert_node` outcome: in subsystem mode the deterministic
formatter runs and returns before the generative service is consulted
(domain_expert.py:59-153); otherwise the generative response `gen` is the
step output (domain_expert.py:155-168).  The markdown rendering of the table
is abstracted to the table itself. -/
def domain_expert_node (gen : String) (subsystem_mode : Bool)
    (cal : List CalRow) (wc : List WcRow) : DomainOut :=
  if subsystem_mode then
    .report ⟨status_text cal wc, subsystem_table cal wc⟩
  else .generated gen

theorem foldl_max_gt (c a : ℚ) (l : List WcRow) :
    l.foldl (fun acc r => max acc r.wc_abnormal_ratio) a > c ↔
      a > c ∨ ∃ r ∈ l, r.wc_abnormal_ratio > c := by
  induction l generalizing a with
  | nil => simp
  | cons x xs ih =>
      rw [List.foldl_cons, ih]
      simp only [lt_max_iff, List.mem_cons]
      constructor
      · rintro ((h | h) | ⟨r, hr, h⟩)
        · exact Or.inl h
        · exact Or.inr ⟨x, Or.inl rfl, h⟩
        · exact Or.inr ⟨r, Or.inr hr, h⟩
      · rintro (h | ⟨r, rfl | hr, h⟩)
        · exact Or.inl (Or.inl h)
        · exact Or.inl (Or.inr h)
        · exact Or.inr ⟨r, hr, h⟩

theorem stage_cond_iff (wc : List WcRow) :
    (stage_wc_seen wc = true ∧ stage_wc_ratio wc > 1/20) ↔
      ∃ r ∈ wc, r.wc_abnormal_ratio > 1/20 := by
  constructor
  · rintro ⟨_, hgt⟩
    rcases (foldl_max_gt _ _ _).mp hgt with h | h
    · exact absurd h (by norm_num)
    · exact h
  · rintro ⟨r, hr, h⟩
    refine ⟨?_, (foldl_max_gt _ _ _).mpr (Or.inr ⟨r, hr, h⟩)⟩
    unfold stage_wc_seen
    cases wc with
    | nil => cases hr
    | cons a l => rfl

theorem overdue_nonempty_iff (cal : List CalRow) (sub : String) :
    (overdueList cal sub).isEmpty = false ↔
      ∃ r ∈ cal, r.is_overdue = 1 ∧ r.subsystem = sub := by
  unfold overdueList
  rcases h : cal.filter (fun r => r.is_overdue = 1 ∧ r.subsystem = sub) with _ | ⟨a, l⟩
  · simp only [h, List.map_nil, List.isEmpty_nil]
    rw [List.filter_eq_nil_iff] at h
    constructor
    · intro hcontra
      exact absurd hcontra (by decide)
    · rintro ⟨r, hr, hcond⟩
      exact absurd (by simpa using hcond) (h r hr)
  · simp only [h, List.map_cons, List.isEmpty_cons, true_iff]
    have ha : a ∈ cal.filter (fun r => r.is_overdue = 1 ∧ r.subsystem = sub) := by
      rw [h]; exact List.mem_cons_self a l
    rw [List.mem_filter] at ha
    exact ⟨a, ha.1, by simpa using ha.2⟩

/-- **C4.** In subsystem mode, each subsystem of the health table is marked
`Unhealthy` iff it has at least one overdue calibration row, or — for the
Stage subsystem only — some wafer-center ratio observed this week exceeds
`0.05`; the overall verdict is `Unhealthy` iff some table row is `Unhealthy`;
and the subsystem-mode output is independent of the generative response:
no generative call influences it. -/
theorem c4_subsystem_health_spec (gen gen' : String)
    (cal : List CalRow) (wc : List WcRow) (sub : String)
    (_hsub : sub ∈ subsystemsOf cal) :
    (subsystem_status cal wc sub = "Unhealthy" ↔
      (∃ r ∈ cal, r.is_overdue = 1 ∧ r.subsystem = sub) ∨
      (lowerStr sub = "stage" ∧ ∃ r ∈ wc, r.wc_abnormal_ratio > 1/20)) ∧
    (status_text cal wc = "Unhealthy" ↔
      ∃ p ∈ subsystem_table cal wc, p.2 = "Unhealthy") ∧
    domain_expert_node gen true cal wc = domain_expert_node gen' true cal wc := by
  refine ⟨?_, ?_, rfl⟩
  · unfold subsystem_status
    split
    · next hcond =>
        simp only [true_iff]
        exact Or.inr ⟨hcond.1, (stage_cond_iff wc).mp ⟨hcond.2.1, hcond.2.2⟩⟩
    · next hcond =>
        have hstage : ¬ (lowerStr sub = "stage" ∧ ∃ r ∈ wc, r.wc_abnormal_ratio > 1/20) := by
          intro ⟨h1, h2⟩
          rcases (stage_cond_iff wc).mpr h2 with ⟨hs, hg⟩
          exact hcond ⟨h1, hs, hg⟩
        split
        · next hemp =>
            have hno : ¬ ∃ r ∈ cal, r.is_overdue = 1 ∧ r.subsystem = sub := by
              rw [← overdue_nonempty_iff]
              simp [hemp]
            constructor
            · intro h
              exact absurd h (by decide)
            · rintro (h | h)
              · exact absurd h hno
              · exact absurd h hstage
        · next hemp =>
            have hfalse : (overdueList cal sub).isEmpty = false := by
              cases hb : (overdueList cal sub).isEmpty
              · rfl
              · exact absurd hb hemp
            exact ⟨fun _ => Or.inl ((overdue_nonempty_iff cal sub).mp hfalse), fun _ => rfl⟩
  · unfold status_text
    split
    · next hov =>
        simp only [true_iff]
        unfold overall_unhealthy at hov
        rw [List.any_eq_true] at hov
        obtain ⟨sub', hs, hp⟩ := hov
        exact ⟨(sub', subsystem_status cal wc sub'), List.mem_map.mpr ⟨sub', hs, rfl⟩,
          by simpa using hp⟩
    · next hov =>
        constructor
        · intro h
          exact absurd h (by decide)
        · rintro ⟨p, hp, h2⟩
          exfalso
          apply hov
          unfold overall_unhealthy
          rw [List.any_eq_true]
          obtain ⟨sub', hs, rfl⟩ := List.mem_map.mp hp
          exact ⟨sub', hs, by simpa using h2⟩

/-- Closed witness for `c4_subsystem_health_spec`: one overdue Focus
calibration and the Stage ratio at `0.2` make Focus, Stage and the overall
verdict `Unhealthy`. -/
theorem c4_subsystem_health_spec_witness :
    ("Focus" ∈ subsystemsOf [⟨"8950XR-P2", "Focus", "FOCUS_CAL", 1⟩] ∧
      (subsystem_status [⟨"8950XR-P2", "Focus", "FOCUS_CAL", 1⟩]
          [⟨"8950XR-P2", "R1", 1/5⟩] "Focus" = "Unhealthy" ↔
        (∃ r ∈ [(⟨"8950XR-P2", "Focus", "FOCUS_CAL", 1⟩ : CalRow)],
          r.is_overdue = 1 ∧ r.subsystem = "Focus") ∨
        (lowerStr "Focus" = "stage" ∧
          ∃ r ∈ [(⟨"8950XR-P2", "R1", 1/5⟩ : WcRow)], r.wc_abnormal_ratio > 1/20))) ∧
    (status_text [⟨"8950XR-P2", "Focus", "FOCUS_CAL", 1⟩] [⟨"8950XR-P2", "R1", 1/5⟩] =
        "Unhealthy" ↔
      ∃ p ∈ subsystem_table [⟨"8950XR-P2", "Focus", "FOCUS_CAL", 1⟩]
          [⟨"8950XR-P2", "R1", 1/5⟩], p.2 = "Unhealthy") ∧
    domain_expert_node "text-a" true [⟨"8950XR-P2", "Focus", "FOCUS_CAL", 1⟩]
        [⟨"8950XR-P2", "R1", 1/5⟩] =
      domain_expert_node "text-b" true [⟨"8950XR-P2", "Focus", "FOCUS_CAL", 1⟩]
        [⟨"8950XR-P2", "R1", 1/5⟩] := by
  have hmem : "Focus" ∈ subsystemsOf [⟨"8950XR-P2", "Focus", "FOCUS_CAL", 1⟩] := by decide
  have h := c4_subsystem_health_spec "text-a" "text-b"
    [⟨"8950XR-P2", "Focus", "FOCUS_CAL", 1⟩] [⟨"8950XR-P2", "R1", 1/5⟩] "Focus" hmem
  exact ⟨⟨hmem, h.1⟩, h.2.1, h.2.2⟩

/-! ### Orchestrator state (`GraphState`, core/models.py; supervisor.py)

Step results and actions keep only the fields the orchestration logic reads;
the remaining payload fields (previews, plots, raw text) do not influence
routing. -/

structure Msg where
  role : String
  content : String
deriving DecidableEq, Repr

structure Step where
  step_id : String
  step_type : String
  summary : String
  error : Option String
  dataset_id : Option String
deriving DecidableEq, Repr

structure Action where
  action_type : String
  id : Option String
  description : Option String
  clarification_question : Option String
  tables : Option (List String)
  tool : Option String
  date_from : Option String
  date_to : Option String
  top_k : Option Nat
  chart_type_hint : Option String
deriving DecidableEq, Repr

/-- Action dict with only `action_type`, `id`, `description` keys. -/
def mkAction (ty i desc : String) : Action :=
  ⟨ty, some i, some desc, none, none, none, none, none, none, none⟩

structure Artifact where
  csv_path : String
  row_count : Nat
  columns : List String
deriving DecidableEq, Repr

structure GraphState where
  user_query : String
  chat_history : List Msg
  clarification_answers : List (String × String)
  last_tool : String
  schema_tables : List String
  action_queue : List Action
  next_action : Option Action
  pending_clarification : Option (String × String)
  step_results : List Step
  data_artifacts : List (String × Artifact)
  loop_count : Nat
  subsystem_mode : Bool
deriving Repr

/-! ### Equipment-identifier extraction (`TOOL_RE`, `_extract_tool`, supervisor.py:34,68-100) -/

/-- Python `\w` on the ASCII range (word character for `\b` boundaries). -/
def wordChar (c : Char) : Bool := c.isAlphanum || c = '_'

/-- The lowered literal part of `TOOL_RE = \b8950XR-P[1-4]\b` (IGNORECASE). -/
def toolPat : List Char := ['8', '9', '5', '0', 'x', 'r', '-', 'p']

def toolDigit (c : Char) : Bool := c = '1' || c = '2' || c = '3' || c = '4'

/-- Try to match `TOOL_RE` at the head of an (already lowered) char list,
returning the tool digit; the left word boundary is checked by the caller. -/
def toolMatchHere (l : List Char) : Option Char :=
  if toolPat.isPrefixOf l then
    match l.drop 8 with
    | d :: rest =>
      if toolDigit d && (match rest with | [] => true | c :: _ => !wordChar c)
      then some d else none
    | [] => none
  else none

/-- Left-to-right scan for the first `TOOL_RE` match; `prevWord` records
whether the previous character was a word character (for the leading `\b`). -/
def toolSearchAux (prevWord : Bool) : List Char → Option Char
  | [] => none
  | c :: rest =>
    if !prevWord then
      match toolMatchHere (c :: rest) with
      | some d => some d
      | none => toolSearchAux (wordChar c) rest
    else toolSearchAux (wordChar c) rest

/-- `TOOL_RE.search(s)` followed by `.group(0).upper()`: the first
`\b8950XR-P[1-4]\b` match (case-insensitive), uppercased. -/
def toolSearch (s : String) : Option String :=
  match toolSearchAux false (lowerStr s).data with
  | some d => some (String.mk ['8', '9', '5', '0', 'X', 'R', '-', 'P', d])
  | none => none

/-- The clarification stage of `_extract_tool` (supervisor.py:79-85): for
keys `"tool"` then `"tool_id"`, if the key is present, search its value. -/
def clarToolSearch (clar : List (String × String)) : Option String :=
  match clar.lookup "tool" with
  | some v =>
    match toolSearch v with
    | some t => some t
    | none =>
      match clar.lookup "tool_id" with
      | some w => toolSearch w
      | none => none
  | none =>
    match clar.lookup "tool_id" with
    | some w => toolSearch w
    | none => none

/-- The `last_tool` stage (supervisor.py:87-91): a falsy (empty) remembered
tool is skipped, otherwise it is searched with `TOOL_RE`. -/
def lastToolSearch (last_tool : String) : Option String :=
  if last_tool = "" then none else toolSearch last_tool

/-- The chat-history stage (supervisor.py:93-98): backward scan for the most
recent message whose content mentions a tool. -/
def histToolSearch (hist : List Msg) : Option String :=
  hist.reverse.findSome? (fun m => toolSearch m.content)

/-- `_extract_tool` (supervisor.py:68-100). -/
def extract_tool (q : String) (clar : List (String × String))
    (last_tool : String) (hist : List Msg) : Option String :=
  match toolSearch q with
  | some t => some t
  | none =>
    match clarToolSearch clar with
    | some t => some t
    | none =>
      match lastToolSearch last_tool with
      | some t => some t
      | none => histToolSearch hist

/-! ### Date-range extraction (`_parse_yyyymmdd`, `_extract_date_range`, supervisor.py:103-121) -/

/-- `_parse_yyyymmdd` (supervisor.py:103-107): strip, `fullmatch(\d{8})`,
reformat as `YYYY-MM-DD`. -/
def parse_yyyymmdd (s : String) : Option String :=
  let t := (pyStrip s).data
  if t.length = 8 ∧ t.all Char.isDigit then
    some (String.mk (t.take 4 ++ '-' :: (t.drop 4).take 2 ++ '-' :: t.drop 6))
  else none

/-- Exactly eight digits at the head of the list (`(\d{8})`). -/
def parse8 (l : List Char) : Option (List Char × List Char) :=
  if (l.take 8).length = 8 ∧ (l.take 8).all Char.isDigit
  then some (l.take 8, l.drop 8) else none

/-- Match `(\d{8})\s*(?:to|\-|~)\s*(\d{8})` at the head of an (already
lowered) char list. -/
def rangePat1Here (l : List Char) : Option (List Char × List Char) := do
  let (d1, r1) ← parse8 l
  let r2 := r1.dropWhile Char.isWhitespace
  let r3 ←
    if ['t', 'o'].isPrefixOf r2 then some (r2.drop 2)
    else
      match r2 with
      | '-' :: t => some t
      | '~' :: t => some t
      | _ => none
  let r4 := r3.dropWhile Char.isWhitespace
  let (d2, _) ← parse8 r4
  pure (d1, d2)

/-- At least one whitespace character, then greedy whitespace (`\s+`). -/
def ws1 (l : List Char) : Option (List Char) :=
  match l with
  | c :: rest => if c.isWhitespace then some (rest.dropWhile Char.isWhitespace) else none
  | [] => none

/-- Match `from\s+(\d{8})\s+to\s+(\d{8})` at the head of an (already
lowered) char list. -/
def rangePat2Here (l : List Char) : Option (List Char × List Char) := do
  let r1 ← if ['f', 'r', 'o', 'm'].isPrefixOf l then some (l.drop 4) else none
  let r2 ← ws1 r1
  let (d1, r3) ← parse8 r2
  let r4 ← ws1 r3
  let r5 ← if ['t', 'o'].isPrefixOf r4 then some (r4.drop 2) else none
  let r6 ← ws1 r5
  let (d2, _) ← parse8 r6
  pure (d1, d2)

/-- `re.search`: try to match at each position, left to right. -/
def searchPos (f : List Char → Option (List Char × List Char)) :
    List Char → Option (List Char × List Char)
  | [] => f []
  | c :: rest =>
    match f (c :: rest) with
    | some x => some x
    | none => searchPos f rest

/-- `_extract_date_range` (supervisor.py:110-121).  The IGNORECASE flags are
handled by scanning the lowered query: digits, separators and whitespace are
unaffected by lowering. -/
def extract_date_range (q : String) : Option (String × String) :=
  let ql := (lowerStr q).data
  let m :=
    match searchPos rangePat1Here ql with
    | some r => some r
    | none => searchPos rangePat2Here ql
  match m with
  | none => none
  | some (d1, d2) =>
    match parse_yyyymmdd (String.mk d1), parse_yyyymmdd (String.mk d2) with
    | some a, some b => some (a, b)
    | _, _ => none

/-! ### Orchestrator (`supervisor_node`, supervisor.py:131-492) -/

/-- `_has_successful_step` (supervisor.py:124-128); a step is successful when
its `error` field is falsy (absent or empty). -/
def falsyErr : Option String → Bool
  | none => true
  | some e => e = ""

def has_successful_step (steps : List Step) (sid : String) : Bool :=
  steps.any (fun st => decide (st.step_id = sid) && falsyErr st.error)

/-- `TABLE_KEYWORDS` (supervisor.py:37-45), in dict insertion order. -/
def TABLE_KEYWORDS : List (String × String) :=
  [("defect", "defects_daily"), ("drift", "defects_daily"), ("recipe", "defects_daily"),
    ("calibration", "calibrations"), ("wafer", "wc_points"), ("wc_", "wc_points"),
    ("stage", "wc_points")]

/-- `_infer_tables` (supervisor.py:48-57). -/
def infer_tables (q : String) (schema_tables : List String) : List String :=
  let seen :=
    ((TABLE_KEYWORDS.filter (fun kv => strContains (lowerStr q) kv.1)).map
      (fun kv => kv.2)).eraseDups
  if seen ≠ [] then sortStrs seen else sortStrs schema_tables

/-- Intent keyword tests (supervisor.py:176-213), all on the lowered query. -/
def is_health_q (q : String) : Bool :=
  containsAny (lowerStr q)
    ["system health", "tool health", "how\x27s the system", "health", "drift"]

def is_reason_q (q : String) : Bool :=
  containsAny (lowerStr q)
    ["why", "reason", "root cause", "calibration", "overdue", "wafer", "wc_", "stage",
      "subsystem"]

def is_trend_q (q : String) : Bool :=
  containsAny (lowerStr q) ["trend", "line chart", "plot", "graph", "折线", "趋势"]

def is_subsystem_q (q : String) : Bool :=
  containsAny (lowerStr q)
    ["subsystem", "sub-system", "stage health", "wafer center", "wc_points"]

/-- Manual / how-to intent (supervisor.py:367-379). -/
def is_rag_q (q : String) : Bool :=
  containsAny (lowerStr q)
    ["install", "setup", "open", "launch", "start", "how to", "manual", "guide",
      "operate", "troubleshoot"]

/-- Data-ish keyword heuristic (supervisor.py:405-418). -/
def is_dataish_q (q : String) : Bool :=
  containsAny (lowerStr q)
    ["defect", "calibration", "wafer", "table", "count", "sum", "date", "recipe", "trend"]

/-- A deterministic SQL action (`action_type = "sql_analysis"` with tables and
a resolved tool). -/
def sqlAction (i desc : String) (tables : List String) (tool : String) : Action :=
  ⟨"sql_analysis", some i, some desc, none, some tables, some tool, none, none, none, none⟩

/-- The `ask_user` action of the health flow (supervisor.py:219-231). -/
def askToolAction : Action :=
  ⟨"ask_user", some "tool", some "Need tool to answer system health.",
    some "Which tool do you want me to check? (8950XR-P1, 8950XR-P2, 8950XR-P3, 8950XR-P4)",
    none, none, none, none, none, none⟩

/-- The trend-plan precondition (supervisor.py:332-335): trend intent, a
resolved tool, and an explicit date range. -/
def trend_plan (q : String) (tool : Option String) : Option (String × String × String) :=
  if is_trend_q q then
    match tool, extract_date_range q with
    | some t, some (d1, d2) => some (t, d1, d2)
    | _, _ => none
  else none

/-- Outcome of `json.loads` on the decision-service response
(supervisor.py:467-476).  `json.loads` is external (Python stdlib), so its
verdict on the raw text is carried as an oracle alongside the text:
`notJson` = `JSONDecodeError`, `noActionType` = parses but is not a dict
containing `"action_type"`, `action a` = a dict with an `action_type`. -/
inductive DecisionParse where
  | notJson
  | noActionType
  | action (a : Action)
deriving DecidableEq, Repr

structure LlmResp where
  text : String
  parse : DecisionParse
deriving DecidableEq, Repr

/-- The body of `supervisor_node` after the loop guard
(supervisor.py:143-490). -/
def supervisor_core (resp : LlmResp) (s : GraphState) : GraphState :=
  match s.action_queue with
  | nxt :: rest =>
    -- 0) deterministic action queue: pop next (supervisor.py:151-161)
    { s with action_queue := rest, next_action := some nxt, pending_clarification := none }
  | [] =>
    if has_successful_step s.step_results "ad_hoc_sql" then
      -- ad-hoc SQL already succeeded once: finalize (supervisor.py:163-171)
      { s with
        next_action := some (mkAction "finish" "finish" "Summarize existing SQL result."),
        pending_clarification := none }
    else if is_health_q s.user_query then
      match extract_tool s.user_query s.clarification_answers s.last_tool s.chat_history with
      | none =>
        -- health query without tool: ask the user (supervisor.py:218-231)
        { s with
          next_action := some askToolAction,
          pending_clarification :=
            some ("tool",
              "Which tool do you want me to check? (8950XR-P1, 8950XR-P2, 8950XR-P3, 8950XR-P4)"),
          subsystem_mode := false }
      | some t =>
        if is_subsystem_q s.user_query then
          -- subsystem health plan, head popped into next_action (supervisor.py:234-268)
          { s with
            action_queue :=
              [sqlAction "stage_wc_weekly"
                  "Summarize wafer-center abnormal ratio for Stage subsystem."
                  ["wc_points"] t,
                mkAction "domain_explain" "domain_explain"
                  "Explain subsystem health using calibration and wafer-center only.",
                mkAction "finish" "finish" "Wrap up subsystem health answer."],
            next_action :=
              some (sqlAction "calibration_overdue"
                "Check overdue calibrations (subsystem health)." ["calibrations"] t),
            pending_clarification := none,
            subsystem_mode := true,
            last_tool := t }
        else
          -- general health plan, head popped into next_action (supervisor.py:270-326)
          { s with
            action_queue :=
              (if is_reason_q s.user_query then
                [sqlAction "calibration_overdue"
                    "Check overdue calibrations (supporting evidence only)."
                    ["calibrations"] t,
                  sqlAction "stage_wc_weekly"
                    "Summarize wafer-center abnormal ratio for this week (supporting evidence only)."
                    ["wc_points"] t]
              else []) ++
              [mkAction "domain_explain" "domain_explain"
                  "Explain findings and format the answer per rules (verdict + evidence table).",
                mkAction "finish" "finish" "Summarize and return final answer."],
            next_action :=
              some (sqlAction "defect_drift_weekly"
                "Compute weekly defect sums and drift classification (defects_daily only)."
                ["defects_daily"] t),
            pending_clarification := none,
            subsystem_mode := false,
            last_tool := t }
    else
      match trend_plan s.user_query
          (extract_tool s.user_query s.clarification_answers s.last_tool s.chat_history) with
      | some (t, dfrom, dto) =>
        -- trend chart plan, head popped into next_action (supervisor.py:332-362)
        { s with
          action_queue :=
            [⟨"visualize", some "visualize",
                some "Create a line chart for defect_rate over time.",
                none, none, none, none, none, none, some "line"⟩,
              mkAction "finish" "finish" "Finalize with plot and short summary."],
          next_action :=
            some ⟨"sql_analysis", some "defect_trend_range",
              some "Fetch daily defect totals in date range for plotting defect_rate.",
              none, some ["defects_daily"], some t, some dfrom, some dto, none, none⟩,
          pending_clarification := none,
          last_tool := t }
      | none =>
        if is_rag_q s.user_query then
          -- manual / how-to: straight to RAG (supervisor.py:379-396)
          { s with
            action_queue := [mkAction "finish" "finish" "Summarize RAG findings."],
            next_action :=
              some ⟨"rag_qa", some "rag_manual", some "Search manuals for instructions.",
                none, none, none, none, none, some 6, none⟩,
            pending_clarification := none }
        else if is_dataish_q s.user_query = true ∧
            infer_tables s.user_query s.schema_tables ≠ [] then
          -- generic ad-hoc data lookup (supervisor.py:419-430)
          { s with
            action_queue := [],
            next_action :=
              some ⟨"sql_analysis", some "ad_hoc_sql",
                some "Ad-hoc SQL lookup based on user question.",
                none, some (infer_tables s.user_query s.schema_tables),
                extract_tool s.user_query s.clarification_answers s.last_tool s.chat_history,
                none, none, none, none⟩,
            pending_clarification := none }
        else
          -- 4) LLM supervisor fallback (supervisor.py:435-490)
          match resp.parse with
          | .action a =>
            if a.action_type = "ask_user" then
              { s with
                next_action := some a,
                pending_clarification :=
                  some (a.id.getD "clarify",
                    a.clarification_question.getD "Please provide more detail.") }
            else
              { s with next_action := some a, pending_clarification := none }
          | .noActionType =>
            { s with
              next_action := some (mkAction "finish" "finish" "Provide final answer."),
              pending_clarification := none }
          | .notJson =>
            { s with
              next_action :=
                some (mkAction "finish" "finish"
                  ("Could not parse action. Raw: " ++ takeStr 300 resp.text)),
              pending_clarification := none }

/-- `supervisor_node` (supervisor.py:131-141): increment `loop_count`; past
the bound of 20, force a terminal finish and clear any pending
clarification. -/
def supervisor_node (resp : LlmResp) (s : GraphState) : GraphState :=
  if s.loop_count + 1 > 20 then
    { s with
      loop_count := s.loop_count + 1,
      next_action := some (mkAction "finish" "auto_finish" "Loop guard triggered; finalize."),
      pending_clarification := none }
  else supervisor_core resp { s with loop_count := s.loop_count + 1 }

/-- `route_supervisor` (graph_builder.py:64-77). -/
def route_supervisor (s : GraphState) : String :=
  match s.next_action with
  | some a =>
    if a.action_type = "sql_analysis" ∨ a.action_type = "python_analysis" then "data_analyst"
    else if a.action_type = "domain_explain" then "domain_expert"
    else if a.action_type = "rag_qa" then "rag_qa"
    else if a.action_type = "visualize" then "visualizer"
    else if a.action_type = "ask_user" then "ask_user"
    else "aggregator"
  | none => "aggregator"

/-- A supervisor output is terminal when it routes to `aggregator` or
`ask_user`, both of which edge into `END` (graph_builder.py:96-97). -/
def isTerminal (s : GraphState) : Bool :=
  decide (route_supervisor s = "aggregator") || decide (route_supervisor s = "ask_user")

/-- The control loop: between consecutive supervisor turns an arbitrary
environment step `env n` runs (the dispatched capability node).  The actual
run stops at the first terminal supervisor output; `supRun` simply iterates,
so a terminality proof about `supRun` bounds the real run. -/
def supRun (env : Nat → GraphState → GraphState) (resp : Nat → LlmResp)
    (init : GraphState) : Nat → GraphState
  | 0 => init
  | n + 1 => env n (supervisor_node (resp n) (supRun env resp init n))

theorem supervisor_core_loop_count (r : LlmResp) (s : GraphState) :
    (supervisor_core r s).loop_count = s.loop_count := by
  unfold supervisor_core
  repeat' split
  all_goals rfl

theorem supervisor_node_loop_count (r : LlmResp) (s : GraphState) :
    (supervisor_node r s).loop_count = s.loop_count + 1 := by
  unfold supervisor_node
  split
  · rfl
  · rw [supervisor_core_loop_count]

theorem supervisor_core_next_action_isSome (r : LlmResp) (s : GraphState) :
    (supervisor_core r s).next_action.isSome = true := by
  unfold supervisor_core
  repeat' split
  all_goals rfl

/-- Past the bound, the supervisor forces the terminal finish action
(supervisor.py:134-141). -/
theorem supervisor_forced (r : LlmResp) (st : GraphState) (h : 20 ≤ st.loop_count) :
    supervisor_node r st =
      { st with
        loop_count := st.loop_count + 1,
        next_action := some (mkAction "finish" "auto_finish" "Loop guard triggered; finalize."),
        pending_clarification := none } := by
  unfold supervisor_node
  rw [if_pos (by omega)]

theorem supRun_loop_count (env : Nat → GraphState → GraphState) (resp : Nat → LlmResp)
    (init : GraphState) (henv : ∀ n st, (env n st).loop_count = st.loop_count) :
    ∀ n, (supRun env resp init n).loop_count = init.loop_count + n := by
  intro n
  induction n with
  | zero => rfl
  | succ k ih =>
      show (env k (supervisor_node (resp k) (supRun env resp init k))).loop_count = _
      rw [henv, supervisor_node_loop_count, ih]
      omega

/-- **C5.** The Orchestrator increments `loop_count` on every call, and for
any sequence of decision-service responses (and any capability steps in
between, which never touch `loop_count`), the 21st supervisor call — input
`loop_count = 20` — forces the terminal `finish` action with
`loop_count = 21` and clears any pending clarification; since the real loop
stops at its first terminal output, every run terminates with
`loop_count ≤ 21`. -/
theorem c5_loop_termination (env : Nat → GraphState → GraphState) (resp : Nat → LlmResp)
    (init : GraphState) (r : LlmResp) (s : GraphState)
    (henv : ∀ n st, (env n st).loop_count = st.loop_count)
    (h0 : init.loop_count = 0) :
    (supervisor_node r s).loop_count = s.loop_count + 1 ∧
    (supervisor_node (resp 20) (supRun env resp init 20)).next_action =
      some (mkAction "finish" "auto_finish" "Loop guard triggered; finalize.") ∧
    isTerminal (supervisor_node (resp 20) (supRun env resp init 20)) = true ∧
    (supervisor_node (resp 20) (supRun env resp init 20)).loop_count = 21 ∧
    (supervisor_node (resp 20) (supRun env resp init 20)).pending_clarification = none := by
  have hlc : (supRun env resp init 20).loop_count = 20 := by
    rw [supRun_loop_count env resp init henv 20, h0]
  have hforced := supervisor_forced (resp 20) (supRun env resp init 20) (by omega)
  refine ⟨supervisor_node_loop_count r s, ?_, ?_, ?_, ?_⟩
  · rw [hforced]
  · rw [hforced]
    rfl
  · rw [hforced]
    simpa using hlc
  · rw [hforced]

/-- Closed witness for `c5_loop_termination` at a concrete initial state, a
constant decision response, and the identity environment. -/
theorem c5_loop_termination_witness :
    (supervisor_node ⟨"resp", .notJson⟩
        ⟨"hello", [], [], "", [], [], none, none, [], [], 3, false⟩).loop_count =
      (⟨"hello", [], [], "", [], [], none, none, [], [], 3, false⟩ : GraphState).loop_count
        + 1 ∧
    (supervisor_node ((fun _ => ⟨"resp", .notJson⟩) 20)
        (supRun (fun _ st => st) (fun _ => ⟨"resp", .notJson⟩)
          ⟨"hello", [], [], "", [], [], none, none, [], [], 0, false⟩ 20)).next_action =
      some (mkAction "finish" "auto_finish" "Loop guard triggered; finalize.") ∧
    isTerminal (supervisor_node ((fun _ => ⟨"resp", .notJson⟩) 20)
        (supRun (fun _ st => st) (fun _ => ⟨"resp", .notJson⟩)
          ⟨"hello", [], [], "", [], [], none, none, [], [], 0, false⟩ 20)) = true ∧
    (supervisor_node ((fun _ => ⟨"resp", .notJson⟩) 20)
        (supRun (fun _ st => st) (fun _ => ⟨"resp", .notJson⟩)
          ⟨"hello", [], [], "", [], [], none, none, [], [], 0, false⟩ 20)).loop_count = 21 ∧
    (supervisor_node ((fun _ => ⟨"resp", .notJson⟩) 20)
        (supRun (fun _ st => st) (fun _ => ⟨"resp", .notJson⟩)
          ⟨"hello", [], [], "", [], [], none, none, [], [], 0, false⟩ 20)).pending_clarification
      = none :=
  c5_loop_termination (fun _ st => st) (fun _ => ⟨"resp", .notJson⟩)
    ⟨"hello", [], [], "", [], [], none, none, [], [], 0, false⟩
    ⟨"resp", .notJson⟩
    ⟨"hello", [], [], "", [], [], none, none, [], [], 3, false⟩
    (fun _ _ => rfl) rfl

/-- **C8, counterexample.** The claim says exactly one of {`next_action`
set, `action_queue` non-empty, loop terminated} holds before each dispatch;
but a health-intent turn pops the plan head into `next_action` while leaving
the rest of the plan in `action_queue`, so both hold at once (with the loop
far from its bound). -/
theorem c8_counterexample :
    (supervisor_node ⟨"resp", .notJson⟩
        ⟨"tool health of 8950XR-P1", [], [], "", [], [], none, none, [], [], 0, false⟩
      ).next_action.isSome = true ∧
    (supervisor_node ⟨"resp", .notJson⟩
        ⟨"tool health of 8950XR-P1", [], [], "", [], [], none, none, [], [], 0, false⟩
      ).action_queue ≠ [] ∧
    (supervisor_node ⟨"resp", .notJson⟩
        ⟨"tool health of 8950XR-P1", [], [], "", [], [], none, none, [], [], 0, false⟩
      ).loop_count ≤ 20 := by
  refine ⟨by decide, by decide, by decide⟩

/-- **C8 (amended).** Before each dispatch at least one of {`next_action`
set, `action_queue` non-empty, loop terminated} holds — in fact the
Orchestrator always returns with `next_action` set (possibly alongside a
non-empty `action_queue`). -/
theorem c8_next_action_always_set (r : LlmResp) (s : GraphState) :
    (supervisor_node r s).next_action.isSome = true := by
  unfold supervisor_node
  split
  · rfl
  · exact supervisor_core_next_action_isSome r _

/-- **C9.** Once a successful `ad_hoc_sql` step exists in `step_results`, a
supervisor turn with an empty `action_queue` emits a `finish` action (either
the summarizing finish, or the loop-guard finish past the bound) — never the
ad-hoc SQL action again. -/
theorem c9_adhoc_not_repeated (r : LlmResp) (s : GraphState)
    (hq : s.action_queue = [])
    (hs : has_successful_step s.step_results "ad_hoc_sql" = true) :
    (supervisor_node r s).next_action.map (fun a => a.action_type) = some "finish" ∧
    (supervisor_node r s).next_action.map (fun a => a.id) ≠ some (some "ad_hoc_sql") := by
  obtain ⟨uq, ch, ca, lt, sct, aq, na, pc, sr, da, lc, sm⟩ := s
  simp only at hq hs
  subst hq
  unfold supervisor_node
  split
  · constructor
    · rfl
    · simp [mkAction]
  · unfold supervisor_core
    simp only [hs]
    constructor
    · rfl
    · simp [mkAction]

/-- Closed witness for `c9_adhoc_not_repeated`: a state holding one
successful `ad_hoc_sql` step and an empty queue. -/
theorem c9_adhoc_not_repeated_witness :
    (supervisor_node ⟨"resp", .notJson⟩
        ⟨"how many defect rows", [], [], "", [], [], none, none,
          [⟨"ad_hoc_sql", "sql_analysis", "ok", none, some "ds1"⟩], [], 3, false⟩
      ).next_action.map (fun a => a.action_type) = some "finish" ∧
    (supervisor_node ⟨"resp", .notJson⟩
        ⟨"how many defect rows", [], [], "", [], [], none, none,
          [⟨"ad_hoc_sql", "sql_analysis", "ok", none, some "ds1"⟩], [], 3, false⟩
      ).next_action.map (fun a => a.id) ≠ some (some "ad_hoc_sql") :=
  c9_adhoc_not_repeated ⟨"resp", .notJson⟩
    ⟨"how many defect rows", [], [], "", [], [], none, none,
      [⟨"ad_hoc_sql", "sql_analysis", "ok", none, some "ds1"⟩], [], 3, false⟩
    rfl (by decide)

/-- **C6.** Equipment-identifier resolution follows the priority order:
current query, then clarification answers (keys `"tool"`/`"tool_id"`), then
the remembered `last_tool`, then a backward scan of `chat_history`; whenever
the current query mentions a valid identifier it wins regardless of the
other sources. -/
theorem c6_tool_priority (q : String) (clar : List (String × String))
    (lt : String) (hist : List Msg) :
    extract_tool q clar lt hist =
      ((toolSearch q).or ((clarToolSearch clar).or
        ((lastToolSearch lt).or (histToolSearch hist)))) ∧
    (∀ t, toolSearch q = some t → extract_tool q clar lt hist = some t) := by
  constructor
  · unfold extract_tool
    cases toolSearch q with
    | some t => rfl
    | none =>
      cases clarToolSearch clar with
      | some t => rfl
      | none =>
        cases lastToolSearch lt with
        | some t => rfl
        | none => rfl
  · intro t ht
    unfold extract_tool
    rw [ht]

/-- Closed witness for `c6_tool_priority`, the spec's own example: a query
mentioning P2 with a remembered `last_tool` of P1 resolves to P2. -/
theorem c6_tool_priority_witness :
    extract_tool "Is 8950XR-P2 healthy?" [] "8950XR-P1" [] = some "8950XR-P2" :=
  (c6_tool_priority "Is 8950XR-P2 healthy?" [] "8950XR-P1" []).2 "8950XR-P2" (by decide)

/-- **C7, counterexample.** The claim says a decision-service response
missing `action_type` also yields a finish action carrying the raw response
text; but a response that parses as JSON without `action_type` (e.g. the
text `"\x7b\x7d"`, an empty object) keeps the default finish action with the
fixed description `"Provide final answer."`, which does not carry the raw
text. -/
theorem c7_counterexample :
    (supervisor_node ⟨"\x7b\x7d", .noActionType⟩
        ⟨"zzz", [], [], "", [], [], none, none, [], [], 0, false⟩).next_action =
      some (mkAction "finish" "finish" "Provide final answer.") ∧
    strContains "Provide final answer." "\x7b\x7d" = false := by
  refine ⟨by decide, by decide⟩

/-- **C7 (amended).** When the decision service's response is reached (LLM
fallback) the Orchestrator never raises: a non-JSON response yields a finish
action carrying the raw text (truncated to 300 characters); a response that
is JSON but lacks `action_type` yields the default finish action with the
fixed description (without the raw text); a parsed action is used as is. -/
theorem c7_decision_parse_degrades (resp : LlmResp) (s : GraphState)
    (hloop : s.loop_count + 1 ≤ 20)
    (hq : s.action_queue = [])
    (hadhoc : has_successful_step s.step_results "ad_hoc_sql" = false)
    (hhealth : is_health_q s.user_query = false)
    (htrend : trend_plan s.user_query
      (extract_tool s.user_query s.clarification_answers s.last_tool s.chat_history) = none)
    (hrag : is_rag_q s.user_query = false)
    (hdata : ¬ (is_dataish_q s.user_query = true ∧
      infer_tables s.user_query s.schema_tables ≠ [])) :
    (resp.parse = .notJson →
      (supervisor_node resp s).next_action =
        some (mkAction "finish" "finish"
          ("Could not parse action. Raw: " ++ takeStr 300 resp.text))) ∧
    (resp.parse = .noActionType →
      (supervisor_node resp s).next_action =
        some (mkAction "finish" "finish" "Provide final answer.")) ∧
    (∀ a, resp.parse = .action a → (supervisor_node resp s).next_action = some a) := by
  obtain ⟨uq, ch, ca, lt, sct, aq, na, pc, sr, da, lc, sm⟩ := s
  simp only at hloop hq hadhoc hhealth htrend hrag hdata
  subst hq
  unfold supervisor_node
  rw [if_neg (by dsimp only; omega)]
  unfold supervisor_core
  simp only [hadhoc, hhealth, htrend, hrag, Bool.false_eq_true, if_false]
  rw [if_neg hdata]
  refine ⟨fun hp => ?_, fun hp => ?_, fun a hp => ?_⟩
  · rw [hp]
  · rw [hp]
  · rw [hp]
    dsimp only
    split <;> rfl

/-- Closed witness for `c7_decision_parse_degrades` at a concrete state that
reaches the LLM fallback and a concrete non-JSON response. -/
theorem c7_decision_parse_degrades_witness :
    ((⟨"oops %", .notJson⟩ : LlmResp).parse = .notJson →
      (supervisor_node ⟨"oops %", .notJson⟩
          ⟨"zzz", [], [], "", [], [], none, none, [], [], 0, false⟩).next_action =
        some (mkAction "finish" "finish"
          ("Could not parse action. Raw: " ++ takeStr 300 (⟨"oops %", .notJson⟩ : LlmResp).text))) ∧
    ((⟨"oops %", .notJson⟩ : LlmResp).parse = .noActionType →
      (supervisor_node ⟨"oops %", .notJson⟩
          ⟨"zzz", [], [], "", [], [], none, none, [], [], 0, false⟩).next_action =
        some (mkAction "finish" "finish" "Provide final answer.")) ∧
    (∀ a, (⟨"oops %", .notJson⟩ : LlmResp).parse = .action a →
      (supervisor_node ⟨"oops %", .notJson⟩
          ⟨"zzz", [], [], "", [], [], none, none, [], [], 0, false⟩).next_action = some a) :=
  c7_decision_parse_degrades ⟨"oops %", .notJson⟩
    ⟨"zzz", [], [], "", [], [], none, none, [], [], 0, false⟩
    (by decide) rfl (by decide) (by decide) (by decide) (by decide) (by decide)

/-! ### Deterministic SQL dispatch (`data_analyst_node`, data_analyst.py:35,74-78,367-434)

The fixed text of the four deterministic SQL templates is abstracted to a
structured query value carrying exactly the interpolated parameters; the
row-level semantics of the drift template is modelled by the `WeeklyRow`
functions above.  The LLM-driven generic SQL/Python paths
(data_analyst.py:436-507) are outside the deterministic contract and are
abstracted as an opaque state transformation `generic`. -/

/-- `TOOL_ID_RE.fullmatch` (data_analyst.py:35): the regex
`^8950XR-P[1-4]$` with IGNORECASE, transcribed character by character (the
case-insensitive letters expanded to their two casings). -/
def fullmatchToolId (s : String) : Bool :=
  match s.data with
  | [c0, c1, c2, c3, c4, c5, c6, c7, c8] =>
    c0 = '8' && c1 = '9' && c2 = '5' && c3 = '0' &&
    (c4 = 'X' || c4 = 'x') && (c5 = 'R' || c5 = 'r') && c6 = '-' &&
    (c7 = 'P' || c7 = 'p') && (c8 = '1' || c8 = '2' || c8 = '3' || c8 = '4')
  | _ => false

/-- `_sanitize_tool` (data_analyst.py:74-78): strip, full-match against
`TOOL_ID_RE`, uppercase. -/
def sanitize_tool (tool : String) : Option String :=
  if fullmatchToolId (pyStrip tool) then some (upperStr (pyStrip tool)) else none

/-- `re.fullmatch(r"\d{4}-\d{2}-\d{2}", s)` (data_analyst.py:423-425). -/
def isDateFmt (s : String) : Bool :=
  match s.data with
  | [y1, y2, y3, y4, h1, m1, m2, h2, d1, d2] =>
    y1.isDigit && y2.isDigit && y3.isDigit && y4.isDigit && h1 = '-' &&
    m1.isDigit && m2.isDigit && h2 = '-' && d1.isDigit && d2.isDigit
  | _ => false

/-- A deterministic SQL query as submitted to the query service: template
plus its interpolated parameters (`_sql_defect_drift_weekly`,
`_sql_calibration_overdue`, `_sql_stage_wc_weekly`,
`_sql_defect_trend_range`, and the constant `"SELECT 1 AS error;"`). -/
inductive EmittedSql where
  | defect_drift_weekly (tool : String)
  | calibration_overdue (tool : String)
  | stage_wc_weekly (tool : String)
  | defect_trend_range (tool : String) (date_from date_to : String)
  | const_error
deriving DecidableEq, Repr

/-- The tool string interpolated into the template, if any. -/
def EmittedSql.toolArg : EmittedSql → Option String
  | .defect_drift_weekly t => some t
  | .calibration_overdue t => some t
  | .stage_wc_weekly t => some t
  | .defect_trend_range t _ _ => some t
  | .const_error => none

def det_ids : List String :=
  ["defect_drift_weekly", "calibration_overdue", "stage_wc_weekly", "defect_trend_range"]

inductive DAPlan where
  | skip
  | invalid_tool (step_id : String)
  | det (q : EmittedSql) (reasoning : String)
  | generic_sql
  | generic_python
deriving DecidableEq, Repr

/-- Dispatch logic of the data-analyst node (data_analyst.py:367-434): which
branch runs for a given pending action.  (In the `invalid_tool` branch the
step id is the action id, which is one of the four non-empty deterministic
ids.) -/
def da_plan (act : Option Action) : DAPlan :=
  match act with
  | none => .skip
  | some a =>
    if a.action_type = "sql_analysis" then
      if a.id.getD "" ∈ det_ids then
        match sanitize_tool (a.tool.getD "") with
        | none => .invalid_tool (a.id.getD "")
        | some t =>
          if a.id.getD "" = "defect_drift_weekly" then
            .det (.defect_drift_weekly t)
              "Computed weekly defect sums and drift labels per rules (defects_daily only)."
          else if a.id.getD "" = "calibration_overdue" then
            .det (.calibration_overdue t)
              "Checked calibration due dates (supporting evidence only)."
          else if a.id.getD "" = "stage_wc_weekly" then
            .det (.stage_wc_weekly t)
              "Summarized wafer-center abnormal ratio for this week (supporting evidence only)."
          else
            if isDateFmt (pyStrip (a.date_from.getD "")) = true ∧
                isDateFmt (pyStrip (a.date_to.getD "")) = true then
              .det (.defect_trend_range t (pyStrip (a.date_from.getD ""))
                  (pyStrip (a.date_to.getD "")))
                "Fetched daily defect totals for plotting."
            else .det .const_error "Invalid date range format; expected YYYY-MM-DD."
      else .generic_sql
    else if a.action_type = "python_analysis" then .generic_python
    else .skip

/-- Result of the external query-execution service
(`execute_sqlite_query`), as read by `_sql_state_update`. -/
structure SqlSummary where
  ok : Bool
  dataset_id : String
  csv_path : String
  row_count : Nat
  columns : List String
  error_message : String
deriving DecidableEq, Repr

/-- `_sql_state_update` (data_analyst.py:275-327): on success register a
dataset artifact and append a successful step; on failure append a step with
the error field set; either way clear the pending action.  (The textual
"Rows/Columns" suffix of the summary and the small-row inlining are
presentation details, abstracted.) -/
def sql_state_update (exec : EmittedSql → SqlSummary) (s : GraphState)
    (q : EmittedSql) (reasoning : String) : GraphState :=
  match (exec q).ok with
  | true =>
    { s with
      data_artifacts := s.data_artifacts ++
        [((exec q).dataset_id, ⟨(exec q).csv_path, (exec q).row_count, (exec q).columns⟩)],
      step_results := s.step_results ++
        [⟨(match s.next_action with | some a => a.id.getD "sql" | none => "sql"),
          "sql_analysis", reasoning, none, some (exec q).dataset_id⟩],
      next_action := none }
  | false =>
    { s with
      step_results := s.step_results ++
        [⟨(match s.next_action with | some a => a.id.getD "sql" | none => "sql"),
          "sql_analysis", reasoning, some (exec q).error_message, none⟩],
      next_action := none }

/-- `data_analyst_node` (data_analyst.py:367-434), deterministic part. -/
def data_analyst_node (exec : EmittedSql → SqlSummary)
    (generic : GraphState → GraphState) (s : GraphState) : GraphState :=
  match da_plan s.next_action with
  | .skip => s
  | .invalid_tool sid =>
    { s with
      step_results := s.step_results ++
        [⟨sid, "sql_analysis", "Missing or invalid tool id for deterministic analysis.",
          some "Tool must be one of: 8950XR-P1/P2/P3/P4", none⟩],
      next_action := none }
  | .det q reasoning => sql_state_update exec s q reasoning
  | .generic_sql => generic s
  | .generic_python => generic s

theorem fullmatch_upper_mem (u : String) (hm : fullmatchToolId u = true) :
    upperStr u ∈ (["8950XR-P1", "8950XR-P2", "8950XR-P3", "8950XR-P4"] : List String) := by
  obtain ⟨l⟩ := u
  unfold fullmatchToolId at hm
  dsimp only at hm
  unfold upperStr
  rcases l with _ | ⟨c0, l⟩
  · simp at hm
  rcases l with _ | ⟨c1, l⟩
  · simp at hm
  rcases l with _ | ⟨c2, l⟩
  · simp at hm
  rcases l with _ | ⟨c3, l⟩
  · simp at hm
  rcases l with _ | ⟨c4, l⟩
  · simp at hm
  rcases l with _ | ⟨c5, l⟩
  · simp at hm
  rcases l with _ | ⟨c6, l⟩
  · simp at hm
  rcases l with _ | ⟨c7, l⟩
  · simp at hm
  rcases l with _ | ⟨c8, l⟩
  · simp at hm
  rcases l with _ | ⟨c9, l⟩
  · simp only [Bool.and_eq_true, Bool.or_eq_true, decide_eq_true_eq] at hm
    obtain ⟨⟨⟨⟨⟨⟨⟨⟨h0, h1⟩, h2⟩, h3⟩, h4⟩, h5⟩, h6⟩, h7⟩, h8⟩ := hm
    subst h0 h1 h2 h3 h6
    rcases h4 with h4 | h4 <;> rcases h5 with h5 | h5 <;> rcases h7 with h7 | h7 <;>
      rcases h8 with ((h8 | h8) | h8) | h8 <;> subst_vars <;> decide
  · simp at hm

theorem sanitize_tool_spec {x t : String} (h : sanitize_tool x = some t) :
    t ∈ (["8950XR-P1", "8950XR-P2", "8950XR-P3", "8950XR-P4"] : List String) ∧
    fullmatchToolId t = true ∧ upperStr t = t := by
  unfold sanitize_tool at h
  split at h
  · next hm =>
      injection h with h
      subst h
      have hmem := fullmatch_upper_mem _ hm
      simp only [List.mem_cons, List.not_mem_nil, or_false] at hmem
      rcases hmem with h | h | h | h <;> rw [h] <;> exact ⟨by decide, by decide, by decide⟩
  · cases h

/-- **C10, counterexample.** The claim says a deterministic SQL action whose
`tool` field does not fully match `8950XR-P[1-4]` is rejected with an error
step; but the code strips surrounding whitespace first, so the tool
`" 8950XR-P1"` (leading space, not a full match of the pattern) is accepted:
the step succeeds with no error field and registers a dataset artifact. -/
theorem c10_counterexample :
    fullmatchToolId " 8950XR-P1" = false ∧
    (data_analyst_node (fun _ => ⟨true, "ds1", "p.csv", 2, ["tool"], ""⟩) (fun st => st)
        ⟨"q", [], [], "", [], [],
          some ⟨"sql_analysis", some "defect_drift_weekly", some "d", none,
            some ["defects_daily"], some " 8950XR-P1", none, none, none, none⟩,
          none, [], [], 1, false⟩).step_results =
      [⟨"defect_drift_weekly", "sql_analysis",
        "Computed weekly defect sums and drift labels per rules (defects_daily only).",
        none, some "ds1"⟩] ∧
    (data_analyst_node (fun _ => ⟨true, "ds1", "p.csv", 2, ["tool"], ""⟩) (fun st => st)
        ⟨"q", [], [], "", [], [],
          some ⟨"sql_analysis", some "defect_drift_weekly", some "d", none,
            some ["defects_daily"], some " 8950XR-P1", none, none, none, none⟩,
          none, [], [], 1, false⟩).data_artifacts = [("ds1", ⟨"p.csv", 2, ["tool"]⟩)] := by
  refine ⟨by decide, by decide, by decide⟩

/-- **C10 (amended).** For a deterministic SQL action, if the action's tool
field — after stripping surrounding whitespace — does not fully match
`8950XR-P[1-4]` (case-insensitive), the step appends a step result with its
error field set, registers no dataset artifact, and clears the pending
action; and any tool string interpolated into a deterministic SQL template
is the sanitized identifier: an exact, uppercased match of the pattern. -/
theorem c10_deterministic_sql_guard (exec : EmittedSql → SqlSummary)
    (generic : GraphState → GraphState) (s : GraphState) (a : Action)
    (hna : s.next_action = some a)
    (hty : a.action_type = "sql_analysis")
    (hid : a.id.getD "" ∈ det_ids) :
    (fullmatchToolId (pyStrip (a.tool.getD "")) = false →
      (data_analyst_node exec generic s).step_results =
        s.step_results ++
          [⟨a.id.getD "", "sql_analysis",
            "Missing or invalid tool id for deterministic analysis.",
            some "Tool must be one of: 8950XR-P1/P2/P3/P4", none⟩] ∧
      (data_analyst_node exec generic s).data_artifacts = s.data_artifacts ∧
      (data_analyst_node exec generic s).next_action = none) ∧
    (∀ q r, da_plan s.next_action = .det q r → ∀ tl, q.toolArg = some tl →
      tl ∈ (["8950XR-P1", "8950XR-P2", "8950XR-P3", "8950XR-P4"] : List String) ∧
      fullmatchToolId tl = true ∧ upperStr tl = tl) := by
  refine ⟨fun hbad => ?_, fun q r hplan2 tl htl => ?_⟩
  · have hp : da_plan s.next_action = .invalid_tool (a.id.getD "") := by
      rw [hna]
      unfold da_plan
      dsimp only
      rw [if_pos hty, if_pos hid]
      unfold sanitize_tool
      rw [hbad]
      rfl
    unfold data_analyst_node
    rw [hp]
    exact ⟨rfl, rfl, rfl⟩
  · rw [hna] at hplan2
    unfold da_plan at hplan2
    dsimp only at hplan2
    rw [if_pos hty, if_pos hid] at hplan2
    cases hsan : sanitize_tool (a.tool.getD "") with
    | none =>
        rw [hsan] at hplan2
        dsimp only at hplan2
        cases hplan2
    | some t =>
        rw [hsan] at hplan2
        dsimp only at hplan2
        have hspec := sanitize_tool_spec hsan
        split at hplan2
        · injection hplan2 with hq hr
          subst hq
          simp only [EmittedSql.toolArg, Option.some.injEq] at htl
          subst htl
          exact hspec
        · split at hplan2
          · injection hplan2 with hq hr
            subst hq
            simp only [EmittedSql.toolArg, Option.some.injEq] at htl
            subst htl
            exact hspec
          · split at hplan2
            · injection hplan2 with hq hr
              subst hq
              simp only [EmittedSql.toolArg, Option.some.injEq] at htl
              subst htl
              exact hspec
            · split at hplan2
              · injection hplan2 with hq hr
                subst hq
                simp only [EmittedSql.toolArg, Option.some.injEq] at htl
                subst htl
                exact hspec
              · injection hplan2 with hq hr
                subst hq
                exact absurd htl (by simp [EmittedSql.toolArg])

/-- Closed witness for `c10_deterministic_sql_guard`: the tool `"p2 bogus"`
fails sanitization even after stripping, so the error step is appended, no
artifact is registered, and the pending action is cleared. -/
theorem c10_deterministic_sql_guard_witness :
    (fullmatchToolId (pyStrip ((some "p2 bogus" : Option String).getD "")) = false →
      (data_analyst_node (fun _ => ⟨true, "ds1", "p.csv", 2, ["tool"], ""⟩) (fun st => st)
          ⟨"q", [], [], "", [], [],
            some ⟨"sql_analysis", some "calibration_overdue", some "d", none,
              some ["calibrations"], some "p2 bogus", none, none, none, none⟩,
            none, [⟨"s0", "sql_analysis", "prior", none, none⟩], [("d0", ⟨"c.csv", 1, []⟩)],
            1, false⟩).step_results =
        [⟨"s0", "sql_analysis", "prior", none, none⟩] ++
          [⟨"calibration_overdue", "sql_analysis",
            "Missing or invalid tool id for deterministic analysis.",
            some "Tool must be one of: 8950XR-P1/P2/P3/P4", none⟩] ∧
      (data_analyst_node (fun _ => ⟨true, "ds1", "p.csv", 2, ["tool"], ""⟩) (fun st => st)
          ⟨"q", [], [], "", [], [],
            some ⟨"sql_analysis", some "calibration_overdue", some "d", none,
              some ["calibrations"], some "p2 bogus", none, none, none, none⟩,
            none, [⟨"s0", "sql_analysis", "prior", none, none⟩], [("d0", ⟨"c.csv", 1, []⟩)],
            1, false⟩).data_artifacts = [("d0", ⟨"c.csv", 1, []⟩)] ∧
      (data_analyst_node (fun _ => ⟨true, "ds1", "p.csv", 2, ["tool"], ""⟩) (fun st => st)
          ⟨"q", [], [], "", [], [],
            some ⟨"sql_analysis", some "calibration_overdue", some "d", none,
              some ["calibrations"], some "p2 bogus", none, none, none, none⟩,
            none, [⟨"s0", "sql_analysis", "prior", none, none⟩], [("d0", ⟨"c.csv", 1, []⟩)],
            1, false⟩).next_action = none) ∧
    (∀ q r,
      da_plan (⟨"q", [], [], "", [], [],
          some ⟨"sql_analysis", some "calibration_overdue", some "d", none,
            some ["calibrations"], some "p2 bogus", none, none, none, none⟩,
          none, [⟨"s0", "sql_analysis", "prior", none, none⟩], [("d0", ⟨"c.csv", 1, []⟩)],
          1, false⟩ : GraphState).next_action = .det q r →
      ∀ tl, q.toolArg = some tl →
        tl ∈ (["8950XR-P1", "8950XR-P2", "8950XR-P3", "8950XR-P4"] : List String) ∧
        fullmatchToolId tl = true ∧ upperStr tl = tl) :=
  c10_deterministic_sql_guard (fun _ => ⟨true, "ds1", "p.csv", 2, ["tool"], ""⟩)
    (fun st => st)
    ⟨"q", [], [], "", [], [],
      some ⟨"sql_analysis", some "calibration_overdue", some "d", none,
        some ["calibrations"], some "p2 bogus", none, none, none, none⟩,
      none, [⟨"s0", "sql_analysis", "prior", none, none⟩], [("d0", ⟨"c.csv", 1, []⟩)],
      1, false⟩
    ⟨"sql_analysis", some "calibration_overdue", some "d", none,
      some ["calibrations"], some "p2 bogus", none, none, none, none⟩
    rfl rfl (by decide)

end Chole
